import Mathlib

/-!
A shallow embedding of the Netflix dashboard's data pipeline (src/app.py):
load-and-clean (type coercion followed by full-row null dropping), the
sidebar filter over the cleaned store, and the aggregation reducers
(value-count tables, top-K frequency tables over exploded multi-valued
fields, duration extraction, and the derived insights).
-/

namespace NetflixApp

/-- A raw CSV row as produced by the reader: every cell may be missing
(pandas NaN is modelled as `none`).  `date_added` and `release_year` are
still unparsed text at this point. -/
structure RawRecord where
  content_type : Option String
  title : Option String
  director : Option String
  country : Option String
  date_added : Option String
  release_year : Option String
  duration : Option String
  rating : Option String
  listed_in : Option String
deriving DecidableEq, Repr

/-- A row after the two coercions of `load_and_clean_data`:
`pd.to_datetime(..., errors='coerce')` and `pd.to_numeric(..., errors='coerce')`.
A missing or unparseable cell is `none`; dates are abstracted as `Nat` codes. -/
structure CoercedRecord where
  content_type : Option String
  title : Option String
  director : Option String
  country : Option String
  date_added : Option Nat
  release_year : Option Int
  duration : Option String
  rating : Option String
  listed_in : Option String
deriving DecidableEq, Repr

/-- The per-row effect of the two coercion lines (app.py 47-48), parameterised
by the date and number parsers (`errors='coerce'` maps a parse failure to
null, and a null stays null, which is exactly `Option.bind`). -/
def coerceRecord (parseDate : String → Option Nat) (parseNum : String → Option Int)
    (r : RawRecord) : CoercedRecord :=
  { content_type := r.content_type
    title := r.title
    director := r.director
    country := r.country
    date_added := r.date_added.bind parseDate
    release_year := r.release_year.bind parseNum
    duration := r.duration
    rating := r.rating
    listed_in := r.listed_in }

/-- True when every field of the coerced row is non-null: the rows kept by
`df.dropna()` (app.py line 51). -/
def CoercedRecord.notnull (r : CoercedRecord) : Bool :=
  r.content_type.isSome && r.title.isSome && r.director.isSome && r.country.isSome &&
  r.date_added.isSome && r.release_year.isSome && r.duration.isSome && r.rating.isSome &&
  r.listed_in.isSome

/-- app.py 43-53: coerce `date_added` and `release_year`, then drop every row
with any null field; returns the pair `(df, df_clean)`. -/
def load_and_clean_data (parseDate : String → Option Nat) (parseNum : String → Option Int)
    (raws : List RawRecord) : List CoercedRecord × List CoercedRecord :=
  let df := raws.map (coerceRecord parseDate parseNum)
  (df, df.filter CoercedRecord.notnull)

/-- The cleaning-summary metrics of app.py 66-77. -/
structure CleaningStats where
  original_rows : Nat
  cleaned_rows : Nat
  removed : Nat
  pct_removed : ℚ
deriving Repr

/-- app.py 66-77: `original_rows = len(df_original)`, `cleaned_rows = len(df)`,
`removed = original_rows - cleaned_rows`, `pct_removed = removed / original_rows * 100`. -/
def cleaningSummary (df df_clean : List CoercedRecord) : CleaningStats :=
  { original_rows := df.length
    cleaned_rows := df_clean.length
    removed := df.length - df_clean.length
    pct_removed := ((df.length - df_clean.length : ℕ) : ℚ) / (df.length : ℚ) * 100 }

/-- A fully cleaned catalog record: every field resolved and non-null, as
the rows of `df` after `dropna` (dates again abstracted as `Nat` codes). -/
structure Record where
  content_type : String
  title : String
  director : String
  country : String
  date_added : Nat
  release_year : Int
  duration : String
  rating : String
  listed_in : String
deriving DecidableEq, Repr

/-- The sidebar filter specification (app.py 82-95): the multiselect of
content types and the inclusive release-year slider range. -/
structure FilterSpec where
  content_types : List String
  min_year : Int
  max_year : Int
deriving DecidableEq, Repr

/-- app.py 98-101: `df[(df['type'].isin(selected)) & (df['release_year'].between(lo, hi))]`;
`between` is inclusive at both ends. -/
def apply_filter (cleaned : List Record) (spec : FilterSpec) : List Record :=
  cleaned.filter (fun r =>
    spec.content_types.contains r.content_type &&
    (decide (spec.min_year ≤ r.release_year) && decide (r.release_year ≤ spec.max_year)))

/-- Split a character list on each occurrence of the two-character delimiter
comma-space, scanning left to right: the splitting done by
`.str.split(', ')` on every multi-valued field. -/
def splitCommaSpace : List Char → List (List Char)
  | [] => [[]]
  | ',' :: ' ' :: rest => [] :: splitCommaSpace rest
  | c :: rest =>
    match splitCommaSpace rest with
    | [] => [[c]]
    | w :: ws => (c :: w) :: ws

/-- The delimiter-separated values of one multi-valued field cell. -/
def splitField (s : String) : List String :=
  (splitCommaSpace s.data).map (fun cs => String.mk cs)

/-- Explode a multi-valued column of the view: `.str.split(', ').explode()`. -/
def explodeField (f : Record → String) (view : List Record) : List String :=
  (view.map f).flatMap splitField

/-- app.py 177: the exploded genres column of the filtered view. -/
def genres_list (view : List Record) : List String :=
  explodeField Record.listed_in view

/-- app.py 221: the exploded countries column of the filtered view. -/
def countries_list (view : List Record) : List String :=
  explodeField Record.country view

/-- The distinct values of a list in order of first occurrence (the key
order produced by the pandas value-count hash table). -/
def firstOccur {α : Type} [DecidableEq α] : List α → List α
  | [] => []
  | x :: xs => x :: (firstOccur xs).filter (fun y => decide (y ≠ x))

/-- Each distinct value paired with its number of occurrences, keys in
first-occurrence order. -/
def countPairs {α : Type} [DecidableEq α] (l : List α) : List (α × Nat) :=
  (firstOccur l).map (fun k => (k, l.count k))

/-- Model of `Series.value_counts()`: occurrence counts per distinct value,
sorted by count descending with a stable sort, so that values with equal
counts stay in first-occurrence order. -/
def value_counts {α : Type} [DecidableEq α] (l : List α) : List (α × Nat) :=
  (countPairs l).mergeSort (fun p q => decide (q.2 ≤ p.2))

/-- Occurrence counts per distinct value sorted ascending by value, as in
`value_counts().sort_index()` (app.py 243). -/
def value_counts_sorted_by_key (l : List Int) : List (Int × Nat) :=
  (countPairs l).mergeSort (fun p q => decide (p.1 ≤ q.1))

/-- A value-count table truncated to its first `k` rows: `.head(k)`. -/
def topK {α : Type} [DecidableEq α] (k : Nat) (l : List α) : List (α × Nat) :=
  (value_counts l).take k

/-- app.py 177-178: `value_counts().head(15)` over the exploded genres. -/
def top_genres (view : List Record) : List (String × Nat) :=
  topK 15 (genres_list view)

/-- app.py 221-222: `value_counts().head(15)` over the exploded countries. -/
def top_countries (view : List Record) : List (String × Nat) :=
  topK 15 (countries_list view)

/-- Model of `.str.extract(r'(\d+)').astype(float)` for one cell: pandas
`extract` uses search semantics, so it returns the first maximal run of
decimal digits found anywhere in the string, or null when the string
contains no digit. -/
def firstDigitRun (s : String) : Option Nat :=
  let ds := (s.data.dropWhile (fun c => !c.isDigit)).takeWhile Char.isDigit
  if ds.isEmpty then none
  else some (ds.foldl (fun n c => n * 10 + (c.toNat - 48)) 0)

/-- Modelled from the spec: the extraction policy as the specification words
it, parsing only a LEADING maximal digit run and yielding null when the
string starts with a non-digit.  Kept solely to compare against the
source-derived `firstDigitRun`. -/
def leadingDigitRun (s : String) : Option Nat :=
  let ds := s.data.takeWhile Char.isDigit
  if ds.isEmpty then none
  else some (ds.foldl (fun n c => n * 10 + (c.toNat - 48)) 0)

/-- app.py 265: the movie rows of the filtered view. -/
def movies_df (view : List Record) : List Record :=
  view.filter (fun r => r.content_type == "Movie")

/-- app.py 294: the TV-show rows of the filtered view. -/
def shows_df (view : List Record) : List Record :=
  view.filter (fun r => r.content_type == "TV Show")

/-- A movie/show row of the copied frame after the derived numeric column
(`duration_min` or `seasons`) has been added to the copy. -/
structure DurRecord where
  base : Record
  extracted : Option Nat
deriving DecidableEq, Repr

/-- app.py 265-267: `movies_df = df_filtered[...].copy()` followed by
`movies_df['duration_min'] = movies_df['duration'].str.extract(...)`.
The column is added to a fresh copy, never to the view. -/
def moviesWithDuration (view : List Record) : List DurRecord :=
  (movies_df view).map (fun r => { base := r, extracted := firstDigitRun r.duration })

/-- app.py 294-296: the analogous copied frame for TV shows with `seasons`. -/
def showsWithSeasons (view : List Record) : List DurRecord :=
  (shows_df view).map (fun r => { base := r, extracted := firstDigitRun r.duration })

/-- The data fed to the movie-duration histogram: the `duration_min` column
with nulls dropped (a histogram ignores NaN cells). -/
def movieDurationHist (view : List Record) : List Nat :=
  (moviesWithDuration view).filterMap (fun d => d.extracted)

/-- The data fed to the seasons histogram, nulls dropped. -/
def showSeasonsHist (view : List Record) : List Nat :=
  (showsWithSeasons view).filterMap (fun d => d.extracted)

/-- app.py 266/295: each duration panel renders its histogram only when its
frame is non-empty, and shows the no-data message otherwise. -/
def movieDurationSection (view : List Record) : Option (List Nat) :=
  if (movies_df view).isEmpty then none else some (movieDurationHist view)

/-- The seasons panel with the same emptiness guard. -/
def showSeasonsSection (view : List Record) : Option (List Nat) :=
  if (shows_df view).isEmpty then none else some (showSeasonsHist view)

/-- app.py 111/329: `len(df_filtered[df_filtered['type'] == 'Movie'])`. -/
def movies_count (view : List Record) : Nat := (movies_df view).length

/-- app.py 115/330: `len(df_filtered[df_filtered['type'] == 'TV Show'])`. -/
def shows_count (view : List Record) : Nat := (shows_df view).length

/-- Result of the Content Mix insight: either the movies-to-shows quotient
or the sentinel text shown when the view has no TV shows. -/
inductive ContentMix where
  | quotient (q : ℚ)
  | onlyMovies
deriving DecidableEq, Repr

/-- app.py 328-335: divide movies by shows when `shows_count > 0`, otherwise
report the "Only movies selected" sentinel without dividing. -/
def contentMixInsight (view : List Record) : ContentMix :=
  if 0 < shows_count view then
    .quotient ((movies_count view : ℚ) / (shows_count view : ℚ))
  else .onlyMovies

/-- app.py 337-342: the most popular genre, or the no-data sentinel (`none`)
when the filtered view is empty. -/
def topGenreInsight (view : List Record) : Option String :=
  if view.isEmpty then none
  else (value_counts (genres_list view)).head?.map Prod.fst

/-- The arithmetic mean of the release years of a view. -/
def meanYear (view : List Record) : ℚ :=
  ((view.map (fun r => (r.release_year : ℚ))).sum) / (view.length : ℚ)

/-- Truncation of a rational toward zero: the semantics of Python `int()`
on the float mean. -/
def ratTrunc (q : ℚ) : Int := q.num.tdiv q.den

/-- app.py 344-349: `int(df_filtered['release_year'].mean())` when the view
is non-empty, otherwise the no-data sentinel (`none`). -/
def avgYearInsight (view : List Record) : Option Int :=
  if view.isEmpty then none else some (ratTrunc (meanYear view))

/-- The calendar year of an abstract date code: dates are modelled as
`YYYYMMDD` numeric codes, so `dt.year` is division by 10000. -/
def dateYear (d : Nat) : Nat := d / 10000

/-- app.py 153: `df_filtered.groupby(df_filtered['date_added'].dt.year).size()`,
the count of titles per calendar year added, keys sorted ascending as
`groupby` sorts them. -/
def added_trend (view : List Record) : List (Nat × Nat) :=
  (countPairs (view.map (fun r => dateYear r.date_added))).mergeSort
    (fun p q => decide (p.1 ≤ q.1))

/-- app.py 119: `df_filtered['country'].str.split(', ').explode().nunique()`,
the number of distinct exploded countries. -/
def countries_nunique (view : List Record) : Nat :=
  (firstOccur (countries_list view)).length

/-- app.py 123: the number of distinct exploded genres. -/
def genres_nunique (view : List Record) : Nat :=
  (firstOccur (genres_list view)).length

/-- The aggregate results one full render pass hands to the charts. -/
structure Aggregates where
  total_titles : Nat
  movies_metric : Nat
  shows_metric : Nat
  countries_metric : Nat
  genres_metric : Nat
  type_dist : List (String × Nat)
  added_trend_table : List (Nat × Nat)
  top_genres_table : List (String × Nat)
  top_countries_table : List (String × Nat)
  rating_dist : List (String × Nat)
  release_dist : List (Int × Nat)
  movie_durations : Option (List Nat)
  show_seasons : Option (List Nat)
  content_mix : ContentMix
  top_genre : Option String
  avg_year : Option Int
deriving Repr

/-- All aggregation reducers of app.py 103-349 computed from one view: the
five key metrics (total, movies, shows, country and genre cardinalities),
the type distribution, the temporal trend over the year added, the top-15
genre and country tables, the rating and release-year distributions, the
two duration panels, and the three insights. -/
def computeAggregates (view : List Record) : Aggregates :=
  { total_titles := view.length
    movies_metric := movies_count view
    shows_metric := shows_count view
    countries_metric := countries_nunique view
    genres_metric := genres_nunique view
    type_dist := value_counts (view.map Record.content_type)
    added_trend_table := added_trend view
    top_genres_table := top_genres view
    top_countries_table := top_countries view
    rating_dist := (value_counts (view.map Record.rating)).take 10
    release_dist := value_counts_sorted_by_key (view.map Record.release_year)
    movie_durations := movieDurationSection view
    show_seasons := showSeasonsSection view
    content_mix := contentMixInsight view
    top_genre := topGenreInsight view
    avg_year := avgYearInsight view }

/-- The aggregate results produced from an empty view: every count zero,
every table empty, and every insight at its documented no-data sentinel. -/
def emptyAggregates : Aggregates :=
  { total_titles := 0
    movies_metric := 0
    shows_metric := 0
    countries_metric := 0
    genres_metric := 0
    type_dist := []
    added_trend_table := []
    top_genres_table := []
    top_countries_table := []
    rating_dist := []
    release_dist := []
    movie_durations := none
    show_seasons := none
    content_mix := .onlyMovies
    top_genre := none
    avg_year := none }

/-- The session state threaded through one render pass: the cleaned store is
the only persistent object. -/
structure Session where
  df : List Record
deriving Repr

/-- One full interactive pass (app.py 98-349): filter the cleaned store,
compute every aggregate from the view, and return the (unchanged) session
together with the view and the aggregate results. -/
def renderPass (s : Session) (spec : FilterSpec) : Session × List Record × Aggregates :=
  let view := apply_filter s.df spec
  (s, view, computeAggregates view)

/-! Theorems -/

/-- C1: for every raw record sequence, clean returns exactly the records in
which every field is non-null after coercing `date_added` and `release_year`
(membership characterisation), keeps them in order (sublist), and the
reported statistics satisfy `cleaned_count + removed_count = original_count`. -/
theorem clean_totality (parseDate : String → Option Nat) (parseNum : String → Option Int)
    (raws : List RawRecord) :
    (∀ c, c ∈ (load_and_clean_data parseDate parseNum raws).2 ↔
      c ∈ (load_and_clean_data parseDate parseNum raws).1 ∧ c.notnull = true) ∧
    (load_and_clean_data parseDate parseNum raws).2.Sublist
      (load_and_clean_data parseDate parseNum raws).1 ∧
    (load_and_clean_data parseDate parseNum raws).1.length = raws.length ∧
    (cleaningSummary (load_and_clean_data parseDate parseNum raws).1
        (load_and_clean_data parseDate parseNum raws).2).cleaned_rows +
      (cleaningSummary (load_and_clean_data parseDate parseNum raws).1
        (load_and_clean_data parseDate parseNum raws).2).removed =
      (cleaningSummary (load_and_clean_data parseDate parseNum raws).1
        (load_and_clean_data parseDate parseNum raws).2).original_rows := by
  refine ⟨?_, ?_, ?_, ?_⟩
  · intro c
    simp [load_and_clean_data, List.mem_filter]
  · exact List.filter_sublist _
  · simp [load_and_clean_data]
  · have hle := List.length_filter_le CoercedRecord.notnull
      (raws.map (coerceRecord parseDate parseNum))
    simp only [load_and_clean_data, cleaningSummary]
    omega

/-- C2: the filtered view contains exactly the cleaned records whose
content type is selected and whose release year lies inclusively between
the slider bounds, and the view is an order-preserving subsequence of the
cleaned sequence. -/
theorem filter_containment (cleaned : List Record) (spec : FilterSpec) :
    (∀ r, r ∈ apply_filter cleaned spec ↔
      r ∈ cleaned ∧ r.content_type ∈ spec.content_types ∧
      spec.min_year ≤ r.release_year ∧ r.release_year ≤ spec.max_year) ∧
    (apply_filter cleaned spec).Sublist cleaned := by
  constructor
  · intro r
    simp [apply_filter, List.mem_filter, and_assoc]
  · exact List.filter_sublist _

/-- C9: one full render pass returns the session's cleaned store unchanged,
the view it aggregates over is exactly the filtered view of that store, and
the derived duration/seasons columns are added to fresh copies whose
underlying rows coincide with the view's movie and show rows. -/
theorem aggregation_no_mutation (s : Session) (spec : FilterSpec) :
    (renderPass s spec).1 = s ∧
    (renderPass s spec).2.1 = apply_filter s.df spec ∧
    (∀ view : List Record,
      (moviesWithDuration view).map DurRecord.base = movies_df view ∧
      (showsWithSeasons view).map DurRecord.base = shows_df view) := by
  refine ⟨rfl, rfl, ?_⟩
  intro view
  constructor
  · rw [moviesWithDuration, List.map_map]
    exact List.map_id _
  · rw [showsWithSeasons, List.map_map]
    exact List.map_id _

/-- C10: for a non-empty raw dataset the removed-percentage statistic equals
`(original_count - cleaned_count) / original_count * 100` exactly, the
divisor being the original record count, which is non-zero precisely because
the input is non-empty. -/
theorem pct_removed_formula (parseDate : String → Option Nat) (parseNum : String → Option Int)
    (raws : List RawRecord) (h : raws ≠ []) :
    (cleaningSummary (load_and_clean_data parseDate parseNum raws).1
        (load_and_clean_data parseDate parseNum raws).2).pct_removed =
      ((raws.length : ℚ) - ((load_and_clean_data parseDate parseNum raws).2.length : ℚ)) /
        (raws.length : ℚ) * 100 ∧
    (raws.length : ℚ) ≠ 0 := by
  have hle := List.length_filter_le CoercedRecord.notnull
    (raws.map (coerceRecord parseDate parseNum))
  have hlen : (raws.map (coerceRecord parseDate parseNum)).length = raws.length :=
    List.length_map _ _
  constructor
  · simp only [load_and_clean_data, cleaningSummary]
    rw [Nat.cast_sub (by omega)]
    rw [hlen]
  · have : raws.length ≠ 0 := by
      simpa [List.length_eq_zero] using h
    exact_mod_cast this

/-- A raw record with every field present; used to instantiate hypotheses of
the cleaning theorems at a concrete input. -/
def rawComplete : RawRecord :=
  { content_type := some "Movie"
    title := some "T"
    director := some "D"
    country := some "US"
    date_added := some "January 1, 2020"
    release_year := some "2019"
    duration := some "90 min"
    rating := some "PG-13"
    listed_in := some "Dramas" }

/-- C10 witness: the percentage formula evaluated on a concrete one-record
raw dataset. -/
theorem pct_removed_formula_witness :
    (cleaningSummary (load_and_clean_data (fun _ => some 20200101) (fun _ => some 2019)
        [rawComplete]).1
      (load_and_clean_data (fun _ => some 20200101) (fun _ => some 2019) [rawComplete]).2).pct_removed =
      ((([rawComplete] : List RawRecord).length : ℚ) -
        ((load_and_clean_data (fun _ => some 20200101) (fun _ => some 2019)
          [rawComplete]).2.length : ℚ)) /
        (([rawComplete] : List RawRecord).length : ℚ) * 100 ∧
    ((([rawComplete] : List RawRecord).length : ℚ) ≠ 0) :=
  pct_removed_formula (fun _ => some 20200101) (fun _ => some 2019) [rawComplete]
    (by simp)

/-- A concrete cleaned movie record used to instantiate theorems. -/
def recMovie : Record :=
  { content_type := "Movie"
    title := "M"
    director := "D"
    country := "US, UK"
    date_added := 20200101
    release_year := 2020
    duration := "90 min"
    rating := "PG-13"
    listed_in := "Dramas, Comedies" }

/-- A concrete cleaned TV-show record used to instantiate theorems. -/
def recShow : Record :=
  { content_type := "TV Show"
    title := "S"
    director := "E"
    country := "UK"
    date_added := 20200202
    release_year := 2021
    duration := "2 Seasons"
    rating := "TV-MA"
    listed_in := "Dramas" }

/-- Auxiliary length identity: a `filterMap` keeps exactly the elements on
which the partial function succeeds. -/
theorem length_filterMap_eq_length_filter_isSome {α β : Type} (g : α → Option β) :
    ∀ l : List α, (l.filterMap g).length = (l.filter (fun a => (g a).isSome)).length := by
  intro l
  induction l with
  | nil => rfl
  | cons a l ih =>
    cases hg : g a <;> simp [List.filterMap_cons, List.filter_cons, hg, ih]

/-- C3 counterexample: the duration string "x90 min" has a non-digit prefix,
for which the claim requires a null extraction, yet the extraction used by
the code (search semantics of `str.extract`) yields 90; the spec-worded
leading-run extraction would indeed yield null. -/
theorem duration_extract_counterexample :
    firstDigitRun "x90 min" = some 90 ∧
    ¬ firstDigitRun "x90 min" = none ∧
    leadingDigitRun "x90 min" = none := by
  refine ⟨by decide, by decide, by decide⟩

/-- C3 amended: the extraction parses the first maximal run of decimal
digits found anywhere in the string ("3 Seasons" gives 3, "90 min" gives
90), a string with no digit at all (in particular "") gives null, and a
record with a null extraction stays in the filtered view, being excluded
only from the duration histogram data. -/
theorem duration_extract_amended :
    firstDigitRun "3 Seasons" = some 3 ∧
    firstDigitRun "90 min" = some 90 ∧
    firstDigitRun "" = none ∧
    (∀ s : String, (∀ c ∈ s.data, c.isDigit = false) → firstDigitRun s = none) ∧
    (∀ view : List Record, ∀ r ∈ movies_df view,
      firstDigitRun r.duration = none → r ∈ view) ∧
    (∀ view : List Record,
      (movieDurationHist view).length =
        ((movies_df view).filter (fun r => (firstDigitRun r.duration).isSome)).length) := by
  refine ⟨by decide, by decide, by decide, ?_, ?_, ?_⟩
  · intro s hs
    have hd : s.data.dropWhile (fun c => !c.isDigit) = [] := by
      rw [List.dropWhile_eq_nil_iff]
      intro c hc
      simp [hs c hc]
    simp [firstDigitRun, hd]
  · intro view r hr _
    exact (List.mem_filter.mp hr).1
  · intro view
    rw [movieDurationHist, moviesWithDuration, List.filterMap_map]
    exact length_filterMap_eq_length_filter_isSome _ _

/-- A concrete movie record whose duration string carries no digits. -/
def recNoDigits : Record :=
  { content_type := "Movie"
    title := "N"
    director := "D"
    country := "US"
    date_added := 20200303
    release_year := 2018
    duration := "Special"
    rating := "PG"
    listed_in := "Documentaries" }

/-- C3 witness: a concrete all-letter duration string extracts to null, and a
concrete movie record with that duration stays in the view it came from. -/
theorem duration_extract_amended_witness :
    firstDigitRun "Special" = none ∧ recNoDigits ∈ [recNoDigits, recShow] := by
  constructor
  · exact duration_extract_amended.2.2.2.1 "Special" (by decide)
  · exact duration_extract_amended.2.2.2.2.1 [recNoDigits, recShow] recNoDigits
      (by decide) (by decide)

/-- C6: a filter specification with no selected content type, or with a
degenerate year range, yields the empty view, and on the empty view every
aggregation reducer and insight returns its no-data value: empty tables,
the suppressed duration panels, the "only movies" sentinel, and the two
no-data warnings. -/
theorem degenerate_filter_stability (cleaned : List Record) (spec : FilterSpec)
    (h : spec.content_types = [] ∨ spec.max_year < spec.min_year) :
    apply_filter cleaned spec = [] ∧
    computeAggregates (apply_filter cleaned spec) = emptyAggregates := by
  have hempty : apply_filter cleaned spec = [] := by
    rw [apply_filter, List.filter_eq_nil_iff]
    intro r hr
    rcases h with h | h
    · simp [h]
    · simp only [Bool.and_eq_true, decide_eq_true_eq, not_and]
      intro _ h1 h2
      omega
  rw [hempty]
  refine ⟨rfl, ?_⟩
  simp [computeAggregates, emptyAggregates, value_counts, value_counts_sorted_by_key,
    countPairs, firstOccur, top_genres, top_countries, topK, genres_list, countries_list,
    explodeField, movieDurationSection, showSeasonsSection, movies_df, shows_df,
    contentMixInsight, movies_count, shows_count, topGenreInsight, avgYearInsight,
    added_trend, countries_nunique, genres_nunique]

/-- C6 witness: the degenerate behaviour evaluated at a concrete cleaned
store and an empty content-type selection. -/
theorem degenerate_filter_stability_witness :
    apply_filter [recMovie, recShow]
        { content_types := [], min_year := 2000, max_year := 2025 } = [] ∧
    computeAggregates (apply_filter [recMovie, recShow]
        { content_types := [], min_year := 2000, max_year := 2025 }) = emptyAggregates :=
  degenerate_filter_stability [recMovie, recShow]
    { content_types := [], min_year := 2000, max_year := 2025 } (Or.inl rfl)

/-- C7: the Content Mix insight divides movies by shows exactly when the
view has at least one TV-show record, reports the "only movies selected"
sentinel when it has none, and any reported quotient q satisfies
q * shows = movies. -/
theorem content_mix_insight_cases (view : List Record) :
    (0 < shows_count view →
      contentMixInsight view =
        .quotient ((movies_count view : ℚ) / (shows_count view : ℚ))) ∧
    (shows_count view = 0 → contentMixInsight view = .onlyMovies) ∧
    (∀ q : ℚ, contentMixInsight view = .quotient q →
      q * (shows_count view : ℚ) = (movies_count view : ℚ)) := by
  refine ⟨?_, ?_, ?_⟩
  · intro h
    rw [contentMixInsight, if_pos h]
  · intro h
    rw [contentMixInsight, if_neg (by omega)]
  · intro q hq
    by_cases h : 0 < shows_count view
    · rw [contentMixInsight, if_pos h] at hq
      have hne : ((shows_count view : ℚ)) ≠ 0 := by
        exact_mod_cast Nat.pos_iff_ne_zero.mp h
      simp only [ContentMix.quotient.injEq] at hq
      rw [← hq]
      exact div_mul_cancel₀ _ hne
    · rw [contentMixInsight, if_neg h] at hq
      exact absurd hq (by simp)

/-- C7 witness: on a concrete view with one movie and one show the insight
is the movies-by-shows quotient. -/
theorem content_mix_insight_cases_witness :
    contentMixInsight [recMovie, recShow] =
      .quotient ((movies_count [recMovie, recShow] : ℚ) /
        (shows_count [recMovie, recShow] : ℚ)) :=
  (content_mix_insight_cases [recMovie, recShow]).1 (by decide)

/-- Truncation toward zero agrees with the floor on nonnegative rationals. -/
theorem ratTrunc_eq_floor_of_nonneg {q : ℚ} (h : 0 ≤ q) : ratTrunc q = ⌊q⌋ := by
  rw [ratTrunc, Rat.floor_def]
  exact Int.tdiv_eq_ediv (Rat.num_nonneg.mpr h) (by positivity)

/-- A concrete movie released in 2019. -/
def rec2019 : Record :=
  { content_type := "Movie"
    title := "A"
    director := "D"
    country := "US"
    date_added := 20190101
    release_year := 2019
    duration := "100 min"
    rating := "PG"
    listed_in := "Dramas" }

/-- A concrete movie released in 2020. -/
def rec2020a : Record :=
  { content_type := "Movie"
    title := "B"
    director := "D"
    country := "US"
    date_added := 20200101
    release_year := 2020
    duration := "101 min"
    rating := "PG"
    listed_in := "Dramas" }

/-- A second concrete movie released in 2020. -/
def rec2020b : Record :=
  { content_type := "Movie"
    title := "C"
    director := "D"
    country := "US"
    date_added := 20200102
    release_year := 2020
    duration := "102 min"
    rating := "PG"
    listed_in := "Dramas" }

/-- C8 counterexample: on the view with release years 2019, 2020, 2020 the
mean is 6059/3 and its nearest integer is 2020, but the insight reports
`int(mean) = 2019` (truncation), so the reported value is not the mean
rounded to the nearest integer. -/
theorem avg_year_not_rounded :
    avgYearInsight [rec2019, rec2020a, rec2020b] = some 2019 ∧
    round (meanYear [rec2019, rec2020a, rec2020b]) = 2020 ∧
    avgYearInsight [rec2019, rec2020a, rec2020b] ≠
      some (round (meanYear [rec2019, rec2020a, rec2020b])) := by
  have hmean : meanYear [rec2019, rec2020a, rec2020b] = ((6059 : ℤ) : ℚ) / ((3 : ℕ) : ℚ) := by
    simp [meanYear, rec2019, rec2020a, rec2020b]
    norm_num
  have h1 : avgYearInsight [rec2019, rec2020a, rec2020b] = some 2019 := by
    rw [avgYearInsight, if_neg (by simp)]
    rw [ratTrunc_eq_floor_of_nonneg (by rw [hmean]; positivity)]
    rw [hmean, Rat.floor_intCast_div_natCast]
    decide
  have h2 : round (meanYear [rec2019, rec2020a, rec2020b]) = 2020 := by
    rw [hmean]
    norm_num [round_eq]
  refine ⟨h1, h2, ?_⟩
  rw [h1, h2]
  decide

/-- C8 amended: for a non-empty view (with the nonnegative release years the
cleaned data has), the reported average release year is the integer
truncation of the arithmetic mean, i.e. the unique n with n ≤ mean < n + 1,
rather than the mean rounded to the nearest integer. -/
theorem avg_year_truncated (view : List Record) (h : view ≠ [])
    (hnn : ∀ r ∈ view, 0 ≤ r.release_year) :
    avgYearInsight view = some ⌊meanYear view⌋ ∧
    (⌊meanYear view⌋ : ℚ) ≤ meanYear view ∧
    meanYear view < ⌊meanYear view⌋ + 1 := by
  have hmean_nonneg : 0 ≤ meanYear view := by
    rw [meanYear]
    apply div_nonneg
    · apply List.sum_nonneg
      intro x hx
      simp only [List.mem_map] at hx
      obtain ⟨r, hr, rfl⟩ := hx
      exact_mod_cast hnn r hr
    · positivity
  refine ⟨?_, Int.floor_le _, Int.lt_floor_add_one _⟩
  rw [avgYearInsight, if_neg (by simp [h])]
  rw [ratTrunc_eq_floor_of_nonneg hmean_nonneg]

/-- C8 amended witness: the truncation characterisation evaluated on the
concrete three-movie view. -/
theorem avg_year_truncated_witness :
    avgYearInsight [rec2019, rec2020a, rec2020b] =
      some ⌊meanYear [rec2019, rec2020a, rec2020b]⌋ ∧
    (⌊meanYear [rec2019, rec2020a, rec2020b]⌋ : ℚ) ≤ meanYear [rec2019, rec2020a, rec2020b] ∧
    meanYear [rec2019, rec2020a, rec2020b] < ⌊meanYear [rec2019, rec2020a, rec2020b]⌋ + 1 :=
  avg_year_truncated [rec2019, rec2020a, rec2020b] (by decide) (by decide)

/-- The descending-by-count comparison used by the value-count sort is
transitive. -/
theorem countDesc_trans {α : Type} (a b c : α × Nat)
    (hab : (decide (b.2 ≤ a.2)) = true) (hbc : (decide (c.2 ≤ b.2)) = true) :
    (decide (c.2 ≤ a.2)) = true := by
  simp only [decide_eq_true_eq] at *
  omega

/-- The descending-by-count comparison is total. -/
theorem countDesc_total {α : Type} (a b : α × Nat) :
    ((decide (b.2 ≤ a.2)) || (decide (a.2 ≤ b.2))) = true := by
  simp only [Bool.or_eq_true, decide_eq_true_eq]
  omega

/-- A value-count table is sorted by count, descending. -/
theorem value_counts_pairwise {α : Type} [DecidableEq α] (l : List α) :
    (value_counts l).Pairwise (fun p q : α × Nat => q.2 ≤ p.2) := by
  have h := @List.sorted_mergeSort (α × Nat) (fun p q : α × Nat => decide (q.2 ≤ p.2))
    countDesc_trans countDesc_total (countPairs l)
  exact h.imp (by intro a b hab; simpa using hab)

/-- Every row kept by `head k` of a value-count table has a count at least
that of every row cut off by it. -/
theorem topK_count_ge_dropped {α : Type} [DecidableEq α] (k : Nat) (l : List α) :
    ∀ p ∈ (value_counts l).take k, ∀ q ∈ (value_counts l).drop k, q.2 ≤ p.2 := by
  have h := value_counts_pairwise l
  rw [← List.take_append_drop k (value_counts l)] at h
  have h' := (List.pairwise_append.mp h).2.2
  exact fun p hp q hq => h' p hp q hq

/-- Rows of the count table that are not kept by `head k` lie in the dropped
suffix. -/
theorem mem_drop_of_not_mem_take {α : Type} [DecidableEq α] (k : Nat) (l : List α)
    (q : α × Nat) (hq : q ∈ countPairs l) (hnot : q ∉ (value_counts l).take k) :
    q ∈ (value_counts l).drop k := by
  have hmem : q ∈ value_counts l := by
    rw [value_counts, List.mem_mergeSort]
    exact hq
  rw [← List.take_append_drop k (value_counts l), List.mem_append] at hmem
  exact hmem.resolve_left hnot

/-- Stability of the value-count sort: two rows with equal counts keep their
first-encounter order. -/
theorem value_counts_stable {α : Type} [DecidableEq α] (l : List α) (a b : α × Nat)
    (hab : a.2 = b.2) (h : [a, b].Sublist (countPairs l)) :
    [a, b].Sublist (value_counts l) :=
  List.pair_sublist_mergeSort countDesc_trans countDesc_total
    (by simp [hab]) h

/-- C4: every genre or country in the returned top-15 table has a count at
least that of every exploded value not included in it, and rows with equal
counts appear in first-encounter order (the sort by count is stable). -/
theorem topK_monotone_and_stable (view : List Record) :
    (∀ p ∈ top_genres view, ∀ q ∈ countPairs (genres_list view),
      q ∉ top_genres view → q.2 ≤ p.2) ∧
    (∀ p ∈ top_countries view, ∀ q ∈ countPairs (countries_list view),
      q ∉ top_countries view → q.2 ≤ p.2) ∧
    (∀ a b : String × Nat, a.2 = b.2 → [a, b].Sublist (countPairs (genres_list view)) →
      [a, b].Sublist (value_counts (genres_list view))) ∧
    (∀ a b : String × Nat, a.2 = b.2 → [a, b].Sublist (countPairs (countries_list view)) →
      [a, b].Sublist (value_counts (countries_list view))) := by
  refine ⟨?_, ?_, ?_, ?_⟩
  · intro p hp q hq hnot
    exact topK_count_ge_dropped 15 (genres_list view) p hp q
      (mem_drop_of_not_mem_take 15 (genres_list view) q hq hnot)
  · intro p hp q hq hnot
    exact topK_count_ge_dropped 15 (countries_list view) p hp q
      (mem_drop_of_not_mem_take 15 (countries_list view) q hq hnot)
  · exact value_counts_stable (genres_list view)
  · exact value_counts_stable (countries_list view)

/-- A concrete show listing sixteen distinct genres, so that the top-15
table necessarily cuts one off. -/
def recManyGenres : Record :=
  { content_type := "TV Show"
    title := "G"
    director := "D"
    country := "US"
    date_added := 20210101
    release_year := 2021
    duration := "1 Season"
    rating := "TV-14"
    listed_in := "g01, g02, g03, g04, g05, g06, g07, g08, g09, g10, g11, g12, g13, g14, g15, g16" }

/-- A concrete movie listing only the first of those genres, making its
count strictly larger. -/
def recOneGenre : Record :=
  { content_type := "Movie"
    title := "H"
    director := "D"
    country := "US"
    date_added := 20210102
    release_year := 2021
    duration := "99 min"
    rating := "PG"
    listed_in := "g01" }

/-- The concrete two-record view exercising the top-K table. -/
def viewTopK : List Record := [recManyGenres, recOneGenre]

/-- C4 witness: on the concrete sixteen-genre view, the kept row ("g01", 2)
dominates the cut-off row ("g16", 1), and the equal-count pair g02, g03
keeps its first-encounter order in the sorted table. -/
theorem topK_monotone_and_stable_witness :
    ((("g16", 1) : String × Nat).2 ≤ (("g01", 2) : String × Nat).2) ∧
    [(("g02", 1) : String × Nat), (("g03", 1) : String × Nat)].Sublist
      (value_counts (genres_list viewTopK)) := by
  have hvc : value_counts (genres_list viewTopK) = countPairs (genres_list viewTopK) :=
    List.mergeSort_of_sorted (by decide)
  constructor
  · refine (topK_monotone_and_stable viewTopK).1 ("g01", 2) ?_ ("g16", 1) (by decide) ?_
    · rw [top_genres, topK, hvc]
      decide
    · rw [top_genres, topK, hvc]
      decide
  · exact (topK_monotone_and_stable viewTopK).2.2.1 ("g02", 1) ("g03", 1) rfl (by decide)

/-- The first-occurrence key list has no duplicates. -/
theorem firstOccur_nodup {α : Type} [DecidableEq α] : ∀ l : List α, (firstOccur l).Nodup
  | [] => List.nodup_nil
  | x :: xs => by
    rw [firstOccur]
    refine List.Nodup.cons ?_ ((firstOccur_nodup xs).filter _)
    intro hx
    rcases List.mem_filter.mp hx with ⟨-, hne⟩
    simp at hne

/-- The first-occurrence key list has the same members as the original. -/
theorem mem_firstOccur {α : Type} [DecidableEq α] (a : α) :
    ∀ l : List α, a ∈ firstOccur l ↔ a ∈ l
  | [] => Iff.rfl
  | x :: xs => by
    rw [firstOccur]
    by_cases hax : a = x
    · subst hax
      simp
    · simp only [List.mem_cons, List.mem_filter, mem_firstOccur a xs, decide_eq_true_eq]
      constructor
      · rintro (rfl | ⟨h, -⟩)
        · exact Or.inl rfl
        · exact Or.inr h
      · rintro (rfl | h)
        · exact Or.inl rfl
        · exact Or.inr ⟨h, hax⟩

/-- The counts of a count-pair table add up to the length of the tallied
list: each element contributes exactly one unit to its value's count. -/
theorem sum_countPairs {α : Type} [DecidableEq α] (l : List α) :
    ((countPairs l).map Prod.snd).sum = l.length := by
  rw [countPairs, List.map_map]
  have hperm : List.Perm (firstOccur l) l.dedup :=
    (List.perm_ext_iff_of_nodup (firstOccur_nodup l) l.nodup_dedup).mpr
      (fun a => (mem_firstOccur a l).trans List.mem_dedup.symm)
  have := (hperm.map (fun k => l.count k)).sum_eq
  calc ((firstOccur l).map (Prod.snd ∘ fun k => (k, l.count k))).sum
      = ((firstOccur l).map (fun k => l.count k)).sum := rfl
    _ = (l.dedup.map (fun k => l.count k)).sum := this
    _ = l.length := List.sum_map_count_dedup_eq_length l

/-- The counts of a value-count table add up to the length of the tallied
list (the sort is a permutation). -/
theorem sum_value_counts {α : Type} [DecidableEq α] (l : List α) :
    ((value_counts l).map Prod.snd).sum = l.length := by
  rw [value_counts]
  rw [((List.mergeSort_perm (countPairs l) _).map Prod.snd).sum_eq]
  exact sum_countPairs l

/-- C5: for both multi-valued fields, the per-value counts of the exploded
view sum to the total number of delimited values over the view's records,
and each single value's count tallies one unit per record occurrence (no
normalisation by cardinality). -/
theorem explosion_conservation (view : List Record) :
    (((value_counts (countries_list view)).map Prod.snd).sum =
      (view.map (fun r => (splitField r.country).length)).sum) ∧
    (((value_counts (genres_list view)).map Prod.snd).sum =
      (view.map (fun r => (splitField r.listed_in).length)).sum) ∧
    (∀ v : String, (countries_list view).count v =
      (view.map (fun r => (splitField r.country).count v)).sum) ∧
    (∀ v : String, (genres_list view).count v =
      (view.map (fun r => (splitField r.listed_in).count v)).sum) := by
  refine ⟨?_, ?_, ?_, ?_⟩
  · rw [sum_value_counts, countries_list, explodeField, List.flatMap, List.length_flatten,
      List.map_map, List.map_map]
    rfl
  · rw [sum_value_counts, genres_list, explodeField, List.flatMap, List.length_flatten,
      List.map_map, List.map_map]
    rfl
  · intro v
    rw [countries_list, explodeField, List.flatMap, List.count_flatten,
      List.map_map, List.map_map]
    rfl
  · intro v
    rw [genres_list, explodeField, List.flatMap, List.count_flatten,
      List.map_map, List.map_map]
    rfl

end NetflixApp
